import Mathlib

/-!
Shallow embedding of the two services of the repository
(src/user_service.py and src/public_api.py): the storage-backed handlers of the User Service and the validation,
forwarding and response-shaping logic of the Public API Gateway,
together with proofs of the claims of the spec about them.

JSON scalars reaching the handlers are modelled by `JVal`; the Python
builtin `int()` on such a value is modelled by `pyInt` (decimal string with
optional sign and surrounding whitespace, ints, and bools; `None` and
other values raise, i.e. return `none`).
-/

/-- A JSON scalar value as the Python handlers see it after
`json.loads` / `get_argument`: a string, an integer, a boolean or
`None`. -/
inductive JVal where
  | s (str : String)
  | i (n : Int)
  | b (bo : Bool)
  | null
deriving DecidableEq, Repr

/-- Value of a decimal digit character, `none` on a non-digit. -/
def digitVal (c : Char) : Option Nat :=
  if c.isDigit then some (c.toNat - 48) else none

/-- Accumulate a decimal numeral; `none` if any character is not a digit. -/
def decNat : List Char → Nat → Option Nat
  | [], acc => some acc
  | c :: rest, acc =>
    match digitVal c with
    | some d => decNat rest (acc * 10 + d)
    | none => none

/-- Strip leading and trailing whitespace, as Python `int()` does before
parsing a string. -/
def stripWs (cs : List Char) : List Char :=
  ((cs.dropWhile Char.isWhitespace).reverse.dropWhile Char.isWhitespace).reverse

/-- Python `int(s)` on a string: strip surrounding whitespace, allow an
optional single leading sign, then a nonempty run of decimal digits. -/
def strToInt (str : String) : Option Int :=
  match stripWs str.toList with
  | [] => none
  | '-' :: rest =>
    match rest with
    | [] => none
    | _ => (decNat rest 0).map (fun n => -(n : Int))
  | '+' :: rest =>
    match rest with
    | [] => none
    | _ => (decNat rest 0).map (fun n => (n : Int))
  | cs => (decNat cs 0).map (fun n => (n : Int))

/-- Python `int(x)` on a handler value: identity on ints, 0/1 on bools,
decimal parse on strings, and an exception (`none`) on `None`. -/
def pyInt : JVal → Option Int
  | .i n => some n
  | .b bo => some (if bo then 1 else 0)
  | .s str => strToInt str
  | .null => none

namespace ListingsHandler

/-- Embeds `ListingsHandler._validate_user_id` (src/public_api.py):
`int(user_id)` succeeds and is returned, or the error `"invalid user_id"` is appended. -/
def validate_user_id (user_id : JVal) (errors : List String) :
    Option Int × List String :=
  match pyInt user_id with
  | some n => (some n, errors)
  | none => (none, errors ++ ["invalid user_id"])

/-- Embeds `ListingsHandler._validate_listing_type` (src/public_api.py):
membership test in the Python set of the strings "rent" and "sale". -/
def validate_listing_type (listing_type : JVal) (errors : List String) :
    Option String × List String :=
  match listing_type with
  | .s t =>
    if t = "rent" ∨ t = "sale" then (some t, errors)
    else (none, errors ++ ["invalid listing_type. Supported values: \x27rent\x27, \x27sale\x27"])
  | _ => (none, errors ++ ["invalid listing_type. Supported values: \x27rent\x27, \x27sale\x27"])

/-- Embeds `ListingsHandler._validate_price` (src/public_api.py):
`int(price)` must succeed, then the result must be at least 1. -/
def validate_price (price : JVal) (errors : List String) :
    Option Int × List String :=
  match pyInt price with
  | none => (none, errors ++ ["invalid price. Must be an integer"])
  | some p =>
    if p < 1 then (none, errors ++ ["price must be greater than 0"])
    else (some p, errors)

/-- The payload the gateway builds for the Listing Service on
`POST /listings`: the three validated values as left by the validators. -/
structure ListingPayload where
  user_id : Option Int
  listing_type : Option String
  price : Option Int
deriving DecidableEq, Repr

/-- Outcome of the gateway handler `POST /listings`, parametrised by
the type `R` of the backend JSON response body: either the 400
validation-error response, or a 200 response carrying the backend
body verbatim. -/
inductive PostOutcome (R : Type) where
  | errs (status : Nat) (errors : List String)
  | backendBody (status : Nat) (r : R)
deriving DecidableEq, Repr

/-- Embeds `ListingsHandler.post` (src/public_api.py): run the three field
validators accumulating errors; on any error answer 400 with the error
list and make no backend call; otherwise POST the payload of validated
values to the Listing Service and answer 200 with its JSON body. -/
def post {R : Type} (backendPost : ListingPayload → R)
    (user_id listing_type price : JVal) : PostOutcome R :=
  let v1 := validate_user_id user_id []
  let v2 := validate_listing_type listing_type v1.2
  let v3 := validate_price price v2.2
  if v3.2.length > 0 then
    .errs 400 v3.2
  else
    .backendBody 200 (backendPost ⟨v1.1, v2.1, v3.1⟩)

/-- Accumulated error list of the validation phase of
`ListingsHandler.post` (the state of `errors` after the three validator calls). -/
def fieldErrors (user_id listing_type price : JVal) : List String :=
  (validate_price price
    (validate_listing_type listing_type
      (validate_user_id user_id []).2).2).2

/-- The six fields `ListingsHandler.get` keeps of each backend listing. -/
def listingFields : List String :=
  ["id", "user_id", "listing_type", "price", "created_at", "updated_at"]

/-- Dictionary lookup `row[field]` on a backend listing object, modelled
as an association list: `none` means the Python lookup raises `KeyError`. -/
def lookupField (row : List (String × JVal)) (f : String) : Option JVal :=
  (row.find? (fun kv => kv.1 = f)).map (fun kv => kv.2)

/-- The dict comprehension of `ListingsHandler.get` for one row, the
six-element loop unrolled: build the object with exactly the keys of
`listingFields` in that order, each taken from the row; `none` when some
key is missing from the row (Python raises `KeyError`). -/
def projectListing (row : List (String × JVal)) :
    Option (List (String × JVal)) :=
  (lookupField row "id").bind fun v1 =>
  (lookupField row "user_id").bind fun v2 =>
  (lookupField row "listing_type").bind fun v3 =>
  (lookupField row "price").bind fun v4 =>
  (lookupField row "created_at").bind fun v5 =>
  (lookupField row "updated_at").bind fun v6 =>
  some [("id", v1), ("user_id", v2), ("listing_type", v3),
        ("price", v4), ("created_at", v5), ("updated_at", v6)]

/-- Backend JSON body for `GET /listings` as the handler consumes
it: `listings` is the value of `data.get("listings")`, `none` when the
key is absent (so the `for` loop iterates over Python `None`). -/
structure BackendListingsBody where
  listings : Option (List (List (String × JVal)))
deriving DecidableEq, Repr

/-- Outcome of the gateway handler `GET /listings`: a 400 response
with a single error string (pagination or user_id parse failure), a 200
response with the projected listings, or an uncaught Python exception
escaping the handler. -/
inductive GetOutcome where
  | errs (status : Nat) (error : String)
  | ok (status : Nat) (listings : List (List (String × JVal)))
  | exn
deriving DecidableEq, Repr

/-- Iteration of the `for row in ...` loop of `ListingsHandler.get`:
project the rows one after another, stopping with `none` (the Python
`KeyError`) at the first row missing a projected field. -/
def projectRows : List (List (String × JVal)) →
    Option (List (List (String × JVal)))
  | [] => some []
  | row :: rest =>
    (projectListing row).bind fun l =>
    (projectRows rest).map fun ls => l :: ls

/-- Response-shaping tail of `ListingsHandler.get` (src/public_api.py,
after the backend call): iterate `data.get("listings")` projecting each
row to the six fields. Iterating `None` raises `TypeError`; a row
missing a field raises `KeyError`; both escape the handler. -/
def shapeListings (data : BackendListingsBody) : GetOutcome :=
  match data.listings with
  | none => .exn
  | some rows =>
    match projectRows rows with
    | none => .exn
    | some ls => .ok 200 ls

/-- Embeds `get_argument(name, default)` followed by `int(...)`: an absent
argument defaults to the given int; a present one is a string parsed
with Python `int`. -/
def parseArgInt (arg : Option String) (dflt : Int) : Option Int :=
  match arg with
  | none => some dflt
  | some str => strToInt str

/-- Embeds `ListingsHandler.get` (src/public_api.py): parse `page_num`
(default 1), `page_size` (default 10) and optional `user_id` from the
query string, answering 400 on a parse failure; otherwise call the
Listing Service with them and shape its response body. -/
def get (backendGet : Int → Int → Option Int → BackendListingsBody)
    (page_num_arg page_size_arg user_id_arg : Option String) : GetOutcome :=
  match parseArgInt page_num_arg 1 with
  | none => .errs 400 "invalid page_num"
  | some page_num =>
    match parseArgInt page_size_arg 10 with
    | none => .errs 400 "invalid page_size"
    | some page_size =>
      match user_id_arg with
      | some str =>
        match strToInt str with
        | none => .errs 400 "invalid user_id"
        | some uid => shapeListings (backendGet page_num page_size (some uid))
      | none => shapeListings (backendGet page_num page_size none)

end ListingsHandler

namespace UserService

/-- A row of the `users` table (src/user_service.py, `App.init_db`):
`id INTEGER NOT NULL PRIMARY KEY AUTOINCREMENT`, `name TEXT NOT NULL`,
`created_at INTEGER NOT NULL`, `updated_at INTEGER NOT NULL`. -/
structure User where
  id : Int
  name : String
  created_at : Int
  updated_at : Int
deriving DecidableEq, Repr

/-- State of the SQLite store: the rows of the `users` table in
insertion order, and the AUTOINCREMENT sequence value (largest rowid
ever handed out; the next insert gets `seq + 1`). -/
structure DB where
  rows : List User
  seq : Int
deriving DecidableEq, Repr

/-- The database right after `App.init_db` on a fresh file: an empty
`users` table. -/
def DB.init : DB := ⟨[], 0⟩

/-- Embeds `UsersHandler.post` (src/user_service.py), the CreateUser
operation: name validation is commented out in the source so `errors`
stays empty; `time_now` (microseconds) is stored as both `created_at`
and `updated_at`; AUTOINCREMENT assigns `seq + 1` as the new id, which
`cursor.lastrowid` reports, so the 500 branch is unreachable and the
handler answers 200 with the created user. -/
def UsersHandler.post (db : DB) (user_name : String) (time_now : Int) :
    DB × User :=
  let user : User :=
    { id := db.seq + 1, name := user_name,
      created_at := time_now, updated_at := time_now }
  (⟨db.rows ++ [user], db.seq + 1⟩, user)

/-- States of the store reachable through the service: the initial empty
table followed by any sequence of CreateUser calls (no other exposed
operation writes). -/
inductive Reachable : DB → Prop where
  | init : Reachable DB.init
  | step (db : DB) (user_name : String) (time_now : Int) :
      Reachable db → Reachable (UsersHandler.post db user_name time_now).1

/-- Comparison used by `ORDER BY created_at DESC`: `a` sorts no later
than `b` when the `created_at` of `a` is at least that of `b`. -/
def createdDescOrder (a b : User) : Prop := b.created_at ≤ a.created_at

instance : DecidableRel createdDescOrder := fun a b =>
  inferInstanceAs (Decidable (b.created_at ≤ a.created_at))

instance : IsTotal User createdDescOrder :=
  ⟨fun a b => (le_total b.created_at a.created_at).imp id id⟩

instance : IsTrans User createdDescOrder :=
  ⟨fun _ _ _ h1 h2 => le_trans h2 h1⟩

/-- Result set of `SELECT * FROM users ORDER BY created_at DESC`: the
rows sorted by `created_at` descending (SQLite leaves the order of ties
unspecified; one admissible order is fixed here). -/
def orderByCreatedAtDesc (rows : List User) : List User :=
  List.insertionSort createdDescOrder rows

/-- SQLite `LIMIT ? OFFSET ?` semantics on a result set: a negative
offset counts as zero, a negative limit means no limit. -/
def sqliteLimitOffset (rows : List User) (limit offset : Int) : List User :=
  let rest := rows.drop offset.toNat
  if limit < 0 then rest else rest.take limit.toNat

/-- Embeds the select of `UsersHandler.get` (src/user_service.py), the
ListUsers operation: `ORDER BY created_at DESC LIMIT page_size OFFSET
(page_num - 1) * page_size`. -/
def ListUsers (rows : List User) (page_num page_size : Int) : List User :=
  sqliteLimitOffset (orderByCreatedAtDesc rows) page_size
    ((page_num - 1) * page_size)

/-- Outcome of `UserHandler.get`: `err404` is the 404 response with body
`result` false and an empty `user`; `ok200` is the 200 response with
`result` true and either the looked-up row or an empty `user` when the
result set was empty. -/
inductive UserGetOutcome where
  | err404
  | ok200 (user : Option User)
deriving DecidableEq, Repr

/-- Embeds `UserHandler.get` (src/user_service.py), the GetUser
operation. The source passes `args = (user_id)` — the id string itself,
not a one-element tuple — so `cursor.execute` receives one binding per
character: unless the string has exactly one character the execute
raises and the handler answers 404. With exactly one character bound to
the single placeholder, SQLite numeric affinity converts the digit to
its value and the row loop leaves the last matching row (an empty
result set leaves the empty dict, answered with 200 and `result`
true). -/
def UserHandler.get (db : DB) (user_id : String) : UserGetOutcome :=
  if user_id.length = 1 then
    match strToInt user_id with
    | some n => .ok200 ((db.rows.filter (fun u => u.id = n)).getLast?)
    | none => .ok200 none
  else
    .err404

end UserService

/-! ## Helper lemmas -/

theorem mem_validate_listing_type_of_mem (lt : JVal) (es : List String)
    (e : String) (h : e ∈ es) :
    e ∈ (ListingsHandler.validate_listing_type lt es).2 := by
  cases lt with
  | s t =>
    by_cases ht : t = "rent" ∨ t = "sale" <;>
      simp [ListingsHandler.validate_listing_type, ht, h]
  | i n => simp [ListingsHandler.validate_listing_type, h]
  | b bo => simp [ListingsHandler.validate_listing_type, h]
  | null => simp [ListingsHandler.validate_listing_type, h]

theorem mem_validate_price_of_mem (p : JVal) (es : List String)
    (e : String) (h : e ∈ es) :
    e ∈ (ListingsHandler.validate_price p es).2 := by
  cases hp : pyInt p with
  | none => simp [ListingsHandler.validate_price, hp, h]
  | some v =>
    by_cases hv : v < 1 <;> simp [ListingsHandler.validate_price, hp, hv, h]

theorem validate_user_id_of_none (u : JVal) (es : List String)
    (h : pyInt u = none) :
    (ListingsHandler.validate_user_id u es).2 = es ++ ["invalid user_id"] := by
  simp [ListingsHandler.validate_user_id, h]

theorem validate_listing_type_of_invalid (lt : JVal) (es : List String)
    (h : ∀ t, lt = .s t → ¬(t = "rent" ∨ t = "sale")) :
    "invalid listing_type. Supported values: \x27rent\x27, \x27sale\x27" ∈
      (ListingsHandler.validate_listing_type lt es).2 := by
  cases lt with
  | s t => simp [ListingsHandler.validate_listing_type, h t rfl]
  | i n => simp [ListingsHandler.validate_listing_type]
  | b bo => simp [ListingsHandler.validate_listing_type]
  | null => simp [ListingsHandler.validate_listing_type]

theorem validate_price_of_parse_failure (p : JVal) (es : List String)
    (h : pyInt p = none) :
    "invalid price. Must be an integer" ∈ (ListingsHandler.validate_price p es).2 := by
  simp [ListingsHandler.validate_price, h]

theorem validate_price_of_nonpos (p : JVal) (es : List String) (v : Int)
    (h : pyInt p = some v) (hv : v < 1) :
    "price must be greater than 0" ∈ (ListingsHandler.validate_price p es).2 := by
  simp [ListingsHandler.validate_price, h, hv]

/-- C5: price validation is three-way: a value that does not parse as an
integer records the parse error, one that parses below 1 records the
positivity error, and one that parses at 1 or above records no error and
is returned. -/
theorem c5_price_validation (price : JVal) (errors : List String) :
    (pyInt price = none →
      ListingsHandler.validate_price price errors =
        (none, errors ++ ["invalid price. Must be an integer"])) ∧
    (∀ p : Int, pyInt price = some p → p < 1 →
      ListingsHandler.validate_price price errors =
        (none, errors ++ ["price must be greater than 0"])) ∧
    (∀ p : Int, pyInt price = some p → 1 ≤ p →
      ListingsHandler.validate_price price errors = (some p, errors)) := by
  refine ⟨fun h => ?_, fun p hp hlt => ?_, fun p hp hge => ?_⟩
  · simp [ListingsHandler.validate_price, h]
  · simp [ListingsHandler.validate_price, hp, hlt]
  · simp [ListingsHandler.validate_price, hp, Int.not_lt.mpr hge]

theorem c5_price_validation_witness :
    ListingsHandler.validate_price (.s "x") [] =
      (none, ["invalid price. Must be an integer"]) ∧
    ListingsHandler.validate_price (.i 0) [] =
      (none, ["price must be greater than 0"]) ∧
    ListingsHandler.validate_price (.i 1500) [] = (some 1500, []) :=
  ⟨(c5_price_validation (.s "x") []).1 (by decide),
   (c5_price_validation (.i 0) []).2.1 0 (by decide) (by decide),
   (c5_price_validation (.i 1500) []).2.2 1500 (by decide) (by decide)⟩

/-- C3: on `POST /listings`, the gateway accumulates every applicable
field error rather than failing fast, answers 400 with the whole list
and makes no call to the Listing Service (the outcome is the same
`errs` response for every backend); the body with user_id "abc",
listing_type "lease" and price 0 yields exactly the three corresponding
errors. -/
theorem c3_post_validation {R : Type} (backendPost : ListingsHandler.ListingPayload → R)
    (u lt p : JVal) :
    (ListingsHandler.fieldErrors u lt p ≠ [] →
      ListingsHandler.post backendPost u lt p =
        .errs 400 (ListingsHandler.fieldErrors u lt p)) ∧
    (pyInt u = none → "invalid user_id" ∈ ListingsHandler.fieldErrors u lt p) ∧
    ((∀ t, lt = .s t → ¬(t = "rent" ∨ t = "sale")) →
      "invalid listing_type. Supported values: \x27rent\x27, \x27sale\x27" ∈
        ListingsHandler.fieldErrors u lt p) ∧
    (pyInt p = none →
      "invalid price. Must be an integer" ∈ ListingsHandler.fieldErrors u lt p) ∧
    (∀ v : Int, pyInt p = some v → v < 1 →
      "price must be greater than 0" ∈ ListingsHandler.fieldErrors u lt p) ∧
    ListingsHandler.post backendPost (.s "abc") (.s "lease") (.i 0) =
      .errs 400 ["invalid user_id",
        "invalid listing_type. Supported values: \x27rent\x27, \x27sale\x27",
        "price must be greater than 0"] := by
  refine ⟨fun hne => ?_, fun hu => ?_, fun hlt => ?_, fun hp => ?_,
    fun v hp hv => ?_, ?_⟩
  · have hlen : 0 < (ListingsHandler.fieldErrors u lt p).length :=
      List.length_pos.mpr hne
    simp only [ListingsHandler.post, ListingsHandler.fieldErrors] at hlen ⊢
    rw [if_pos hlen]
  · apply mem_validate_price_of_mem
    apply mem_validate_listing_type_of_mem
    rw [validate_user_id_of_none u [] hu]
    simp
  · apply mem_validate_price_of_mem
    exact validate_listing_type_of_invalid lt _ hlt
  · exact validate_price_of_parse_failure p _ hp
  · exact validate_price_of_nonpos p _ v hp hv
  · have hpos : 0 < (ListingsHandler.fieldErrors (.s "abc") (.s "lease") (.i 0)).length := by
      decide
    simp only [ListingsHandler.post, ListingsHandler.fieldErrors] at hpos ⊢
    rw [if_pos hpos]
    exact congrArg (ListingsHandler.PostOutcome.errs 400) (by decide)

theorem c3_post_validation_witness :
    ListingsHandler.post (fun pl => pl) (.s "abc") (.s "lease") (.i 0) =
      .errs 400 (ListingsHandler.fieldErrors (.s "abc") (.s "lease") (.i 0)) ∧
    "invalid user_id" ∈ ListingsHandler.fieldErrors (.s "abc") (.s "lease") (.i 0) ∧
    "invalid listing_type. Supported values: \x27rent\x27, \x27sale\x27" ∈
      ListingsHandler.fieldErrors (.s "abc") (.s "lease") (.i 0) ∧
    "price must be greater than 0" ∈
      ListingsHandler.fieldErrors (.s "abc") (.s "lease") (.i 0) :=
  have h := c3_post_validation (fun pl => pl) (JVal.s "abc") (JVal.s "lease") (JVal.i 0)
  ⟨h.1 (by decide), h.2.1 (by decide),
   h.2.2.1 (by intro t ht; cases ht; decide),
   h.2.2.2.2.1 0 (by decide) (by decide)⟩

/-- C4: on `POST /listings` with a user_id parsing as an integer, a
listing_type that is exactly "rent" or "sale", and a price parsing as an
integer at least 1, the gateway forwards exactly the validated triple to
the Listing Service and answers 200 with the backend body verbatim. -/
theorem c4_post_forward {R : Type} (backendPost : ListingsHandler.ListingPayload → R)
    (u lt p : JVal) (n v : Int) (t : String)
    (hu : pyInt u = some n) (ht : lt = .s t) (htv : t = "rent" ∨ t = "sale")
    (hp : pyInt p = some v) (hv : 1 ≤ v) :
    ListingsHandler.post backendPost u lt p =
      .backendBody 200 (backendPost ⟨some n, some t, some v⟩) := by
  subst ht
  have h1 : ListingsHandler.validate_user_id u [] = (some n, []) := by
    simp [ListingsHandler.validate_user_id, hu]
  have h2 : ListingsHandler.validate_listing_type (.s t) [] = (some t, []) := by
    simp [ListingsHandler.validate_listing_type, htv]
  have h3 : ListingsHandler.validate_price p [] = (some v, []) := by
    simp [ListingsHandler.validate_price, hp, Int.not_lt.mpr hv]
  simp [ListingsHandler.post, h1, h2, h3]

theorem c4_post_forward_witness :
    ListingsHandler.post (fun pl => pl) (.i 5) (.s "rent") (.i 1500) =
      .backendBody 200 ⟨some 5, some "rent", some 1500⟩ :=
  c4_post_forward (fun pl => pl) (.i 5) (.s "rent") (.i 1500) 5 1500 "rent"
    (by decide) rfl (Or.inl rfl) (by decide) (by decide)

/-- C8: the `GET /listings` projection keeps exactly the six named
fields in order, every kept value comes from the source object, and the
projection is idempotent: re-projecting an already-projected object
gives it back unchanged. -/
theorem c8_projection (row l : List (String × JVal))
    (h : ListingsHandler.projectListing row = some l) :
    l.map Prod.fst = ListingsHandler.listingFields ∧
    (∀ kv ∈ l, ListingsHandler.lookupField row kv.1 = some kv.2) ∧
    ListingsHandler.projectListing l = some l := by
  unfold ListingsHandler.projectListing at h
  rcases e1 : ListingsHandler.lookupField row "id" with _ | v1 <;> rw [e1] at h <;>
    simp only [Option.bind, Option.none_bind, Option.some_bind] at h
  · exact absurd h (by simp)
  rcases e2 : ListingsHandler.lookupField row "user_id" with _ | v2 <;> rw [e2] at h <;>
    simp only [Option.bind, Option.none_bind, Option.some_bind] at h
  · exact absurd h (by simp)
  rcases e3 : ListingsHandler.lookupField row "listing_type" with _ | v3 <;> rw [e3] at h <;>
    simp only [Option.bind, Option.none_bind, Option.some_bind] at h
  · exact absurd h (by simp)
  rcases e4 : ListingsHandler.lookupField row "price" with _ | v4 <;> rw [e4] at h <;>
    simp only [Option.bind, Option.none_bind, Option.some_bind] at h
  · exact absurd h (by simp)
  rcases e5 : ListingsHandler.lookupField row "created_at" with _ | v5 <;> rw [e5] at h <;>
    simp only [Option.bind, Option.none_bind, Option.some_bind] at h
  · exact absurd h (by simp)
  rcases e6 : ListingsHandler.lookupField row "updated_at" with _ | v6 <;> rw [e6] at h <;>
    simp only [Option.bind, Option.none_bind, Option.some_bind] at h
  · exact absurd h (by simp)
  have hl : l = [("id", v1), ("user_id", v2), ("listing_type", v3),
      ("price", v4), ("created_at", v5), ("updated_at", v6)] := by
    exact (Option.some_injective _ h).symm
  subst hl
  refine ⟨rfl, ?_, ?_⟩
  · intro kv hkv
    simp only [List.mem_cons, List.not_mem_nil, or_false] at hkv
    rcases hkv with rfl | rfl | rfl | rfl | rfl | rfl <;> assumption
  · simp [ListingsHandler.projectListing, ListingsHandler.lookupField, List.find?]

theorem c8_projection_witness :
    ListingsHandler.projectListing
      [("id", JVal.i 1), ("user_id", JVal.i 2), ("listing_type", JVal.s "rent"),
       ("price", JVal.i 3), ("created_at", JVal.i 4), ("updated_at", JVal.i 5)] =
      some [("id", JVal.i 1), ("user_id", JVal.i 2), ("listing_type", JVal.s "rent"),
       ("price", JVal.i 3), ("created_at", JVal.i 4), ("updated_at", JVal.i 5)] :=
  (c8_projection
    [("id", JVal.i 1), ("user_id", JVal.i 2), ("listing_type", JVal.s "rent"),
     ("price", JVal.i 3), ("created_at", JVal.i 4), ("updated_at", JVal.i 5),
     ("backend_only", JVal.s "x")]
    [("id", JVal.i 1), ("user_id", JVal.i 2), ("listing_type", JVal.s "rent"),
     ("price", JVal.i 3), ("created_at", JVal.i 4), ("updated_at", JVal.i 5)]
    (by decide)).2.2

theorem projectRows_eq_none_of_mem (rows : List (List (String × JVal)))
    (row : List (String × JVal)) (ha : row ∈ rows)
    (hf : ListingsHandler.projectListing row = none) :
    ListingsHandler.projectRows rows = none := by
  induction rows with
  | nil => cases ha
  | cons x xs ih =>
    rcases List.mem_cons.mp ha with rfl | ha'
    · simp [ListingsHandler.projectRows, hf]
    · cases hx : ListingsHandler.projectListing x <;>
        simp [ListingsHandler.projectRows, hx, ih ha']

theorem projectListing_eq_none_of_missing (row : List (String × JVal))
    (f : String) (hf : f ∈ ListingsHandler.listingFields)
    (h : ListingsHandler.lookupField row f = none) :
    ListingsHandler.projectListing row = none := by
  simp only [ListingsHandler.listingFields, List.mem_cons, List.not_mem_nil,
    or_false] at hf
  rcases hf with rfl | rfl | rfl | rfl | rfl | rfl <;>
  · unfold ListingsHandler.projectListing
    rw [h]
    cases ListingsHandler.lookupField row "id" <;>
    cases ListingsHandler.lookupField row "user_id" <;>
    cases ListingsHandler.lookupField row "listing_type" <;>
    cases ListingsHandler.lookupField row "price" <;>
    cases ListingsHandler.lookupField row "created_at" <;>
    cases ListingsHandler.lookupField row "updated_at" <;> rfl

/-- C10: the `GET /listings` response shaping succeeds only on a
well-formed backend body: a body without the listings key, or with a
listing missing one of the six projected fields, makes the handler
raise an uncaught exception, which is distinct from the structured
400 error response produced for input-validation failures. -/
theorem c10_malformed_backend (data : ListingsHandler.BackendListingsBody) :
    (data.listings = none → ListingsHandler.shapeListings data = .exn) ∧
    (∀ rows row f, data.listings = some rows → row ∈ rows →
      f ∈ ListingsHandler.listingFields →
      ListingsHandler.lookupField row f = none →
      ListingsHandler.shapeListings data = .exn) ∧
    (∀ st e, ListingsHandler.GetOutcome.exn ≠ .errs st e) ∧
    (∀ bg : Int → Int → Option Int → ListingsHandler.BackendListingsBody,
      (bg 1 10 none).listings = none →
      ListingsHandler.get bg none none none = .exn) := by
  refine ⟨fun h => ?_, fun rows row f hrows hrow hf hmiss => ?_,
    fun st e => by simp, fun bg hbg => ?_⟩
  · simp [ListingsHandler.shapeListings, h]
  · have hnone : ListingsHandler.projectListing row = none :=
      projectListing_eq_none_of_missing row f hf hmiss
    have : ListingsHandler.projectRows rows = none :=
      projectRows_eq_none_of_mem rows row hrow hnone
    simp [ListingsHandler.shapeListings, hrows, this]
  · simp only [ListingsHandler.get, ListingsHandler.parseArgInt]
    simp [ListingsHandler.shapeListings, hbg]

theorem c10_malformed_backend_witness :
    ListingsHandler.shapeListings ⟨none⟩ = .exn ∧
    ListingsHandler.shapeListings ⟨some [[("id", JVal.i 1)]]⟩ = .exn :=
  ⟨(c10_malformed_backend ⟨none⟩).1 rfl,
   (c10_malformed_backend ⟨some [[("id", JVal.i 1)]]⟩).2.1
     [[("id", JVal.i 1)]] [("id", JVal.i 1)] "user_id" rfl
     (by decide) (by decide) (by decide)⟩

/-- C1 counterexample: with a users table holding only the row with id
3, the request GET /users/5 targets an id matching no row, yet the
service answers 200 with result true and an empty user object — not the
404 response with result false the claim asserts. -/
theorem c1_counterexample :
    UserService.UserHandler.get ⟨[⟨3, "bob", 1, 1⟩], 3⟩ "5" =
      .ok200 none ∧
    UserService.UserGetOutcome.ok200 none ≠ .err404 := by
  exact ⟨by decide, by decide⟩

/-- C1 amended: on GET /users/id, an id string that is not exactly one
character long yields the 404 response with result false and empty user
(whatever the table holds); a single-character id whose digit value
matches no row yields a 200 response with result true and an empty user
object. -/
theorem c1_amended_not_found (db : UserService.DB) (user_id : String) :
    (user_id.length ≠ 1 → UserService.UserHandler.get db user_id = .err404) ∧
    (∀ n : Int, user_id.length = 1 → strToInt user_id = some n →
      (∀ u ∈ db.rows, u.id ≠ n) →
      UserService.UserHandler.get db user_id = .ok200 none) := by
  constructor
  · intro h
    simp [UserService.UserHandler.get, h]
  · intro n hlen hparse hno
    simp only [UserService.UserHandler.get, hlen, if_pos, hparse]
    have hfil : db.rows.filter (fun u => u.id = n) = [] := by
      rw [List.filter_eq_nil_iff]
      intro a ha
      simpa using hno a ha
    simp [hfil]

theorem c1_amended_witness :
    UserService.UserHandler.get ⟨[⟨3, "bob", 1, 1⟩], 3⟩ "27" = .err404 ∧
    UserService.UserHandler.get ⟨[⟨3, "bob", 1, 1⟩], 3⟩ "5" = .ok200 none :=
  ⟨(c1_amended_not_found ⟨[⟨3, "bob", 1, 1⟩], 3⟩ "27").1 (by decide),
   (c1_amended_not_found ⟨[⟨3, "bob", 1, 1⟩], 3⟩ "5").2 5 (by decide) (by decide)
     (by decide)⟩

/-- C2: the code contradicts the claim at any stored row whose id has
two or more decimal digits: the handler binds the id string itself as
the parameter sequence, the execute raises, and the service answers 404
with result false instead of 200 with the stored row. -/
theorem c2_multi_digit_lookup_fails :
    UserService.UserHandler.get ⟨[⟨10, "alice", 5, 5⟩], 10⟩ "10" = .err404 := by
  decide

/-- C9: because the handler passes the id string itself (not a
one-element tuple) as the parameter sequence, any id string not of
length one makes the execute raise and the service answer 404 with
result false, even when a matching row exists; a successful lookup is
only ever possible for a single-character id. -/
theorem c9_string_binding (db : UserService.DB) (s : String) :
    (s.length ≠ 1 → UserService.UserHandler.get db s = .err404) ∧
    (∀ u : UserService.User,
      UserService.UserHandler.get db s = .ok200 (some u) → s.length = 1) := by
  constructor
  · intro h
    simp [UserService.UserHandler.get, h]
  · intro u h
    by_contra hlen
    simp [UserService.UserHandler.get, hlen] at h

theorem c9_string_binding_witness :
    UserService.UserHandler.get ⟨[⟨10, "alice", 5, 5⟩], 10⟩ "10" = .err404 ∧
    ("5" : String).length = 1 :=
  ⟨(c9_string_binding ⟨[⟨10, "alice", 5, 5⟩], 10⟩ "10").1 (by decide),
   (c9_string_binding ⟨[⟨5, "eve", 2, 2⟩], 5⟩ "5").2 ⟨5, "eve", 2, 2⟩ (by decide)⟩

/-- Rows of a state reachable through the service all carry equal
creation and update timestamps, hence `created_at ≤ updated_at`. -/
theorem UserService.reachable_created_le_updated (db : UserService.DB)
    (h : UserService.Reachable db) :
    ∀ u ∈ db.rows, u.created_at ≤ u.updated_at := by
  induction h with
  | init => simp [UserService.DB.init]
  | step db user_name time_now hR ih =>
    intro u hu
    simp only [UserService.UsersHandler.post, List.mem_append,
      List.mem_singleton] at hu
    rcases hu with hu | rfl
    · exact ih u hu
    · exact le_refl _

/-- C7: CreateUser stores the same timestamp as `created_at` and
`updated_at` of the returned user, two successive calls return strictly
increasing ids, and in every state reachable through the service every
row of the users table satisfies `created_at ≤ updated_at`. -/
theorem c7_create_user (db : UserService.DB) (n1 n2 : String) (t1 t2 : Int)
    (hdb : UserService.Reachable db) :
    ((UserService.UsersHandler.post db n1 t1).2.created_at =
      (UserService.UsersHandler.post db n1 t1).2.updated_at) ∧
    ((UserService.UsersHandler.post db n1 t1).2.id <
      (UserService.UsersHandler.post
        (UserService.UsersHandler.post db n1 t1).1 n2 t2).2.id) ∧
    (∀ u ∈ (UserService.UsersHandler.post db n1 t1).1.rows,
      u.created_at ≤ u.updated_at) := by
  refine ⟨rfl, ?_, ?_⟩
  · simp [UserService.UsersHandler.post]
  · exact UserService.reachable_created_le_updated _
      (UserService.Reachable.step db n1 t1 hdb)

theorem c7_create_user_witness :
    ((UserService.UsersHandler.post UserService.DB.init "a" 7).2.created_at =
      (UserService.UsersHandler.post UserService.DB.init "a" 7).2.updated_at) ∧
    ((UserService.UsersHandler.post UserService.DB.init "a" 7).2.id <
      (UserService.UsersHandler.post
        (UserService.UsersHandler.post UserService.DB.init "a" 7).1 "b" 9).2.id) :=
  ⟨(c7_create_user UserService.DB.init "a" "b" 7 9 UserService.Reachable.init).1,
   (c7_create_user UserService.DB.init "a" "b" 7 9 UserService.Reachable.init).2.1⟩

/-- C6: for page numbers and sizes at least 1, ListUsers returns at
most pageSize users, sorted by `created_at` descending, and equals the
window of the ordering that skips the first (pageNum-1)*pageSize rows;
for pageNum 2 and pageSize 10 that window is rows 11 to 20 of the
ordering. -/
theorem c6_list_users (rows : List UserService.User) (pn ps : Int)
    (hpn : 1 ≤ pn) (hps : 1 ≤ ps) :
    (UserService.ListUsers rows pn ps).length ≤ ps.toNat ∧
    List.Sorted UserService.createdDescOrder (UserService.ListUsers rows pn ps) ∧
    UserService.ListUsers rows pn ps =
      ((UserService.orderByCreatedAtDesc rows).drop ((pn - 1) * ps).toNat).take
        ps.toNat ∧
    UserService.ListUsers rows 2 10 =
      ((UserService.orderByCreatedAtDesc rows).drop 10).take 10 := by
  have hnotneg : ¬ ps < 0 := by omega
  have key : UserService.ListUsers rows pn ps =
      ((UserService.orderByCreatedAtDesc rows).drop ((pn - 1) * ps).toNat).take
        ps.toNat := by
    unfold UserService.ListUsers UserService.sqliteLimitOffset
    simp [hnotneg]
  refine ⟨?_, ?_, key, ?_⟩
  · rw [key]
    exact List.length_take_le _ _
  · rw [key]
    have hs : List.Sorted UserService.createdDescOrder
        (UserService.orderByCreatedAtDesc rows) :=
      List.sorted_insertionSort _ _
    exact List.Pairwise.sublist
      ((List.take_sublist _ _).trans (List.drop_sublist _ _)) hs
  · unfold UserService.ListUsers UserService.sqliteLimitOffset
    norm_num
    rfl

theorem c6_list_users_witness :
    (UserService.ListUsers [⟨1, "a", 3, 3⟩, ⟨2, "b", 9, 9⟩] 2 10).length ≤
      (10 : Int).toNat ∧
    List.Sorted UserService.createdDescOrder
      (UserService.ListUsers [⟨1, "a", 3, 3⟩, ⟨2, "b", 9, 9⟩] 2 10) ∧
    UserService.ListUsers [⟨1, "a", 3, 3⟩, ⟨2, "b", 9, 9⟩] 2 10 =
      ((UserService.orderByCreatedAtDesc [⟨1, "a", 3, 3⟩, ⟨2, "b", 9, 9⟩]).drop
        (((2 : Int) - 1) * 10).toNat).take (10 : Int).toNat ∧
    UserService.ListUsers [⟨1, "a", 3, 3⟩, ⟨2, "b", 9, 9⟩] 2 10 =
      ((UserService.orderByCreatedAtDesc [⟨1, "a", 3, 3⟩, ⟨2, "b", 9, 9⟩]).drop
        10).take 10 :=
  c6_list_users [⟨1, "a", 3, 3⟩, ⟨2, "b", 9, 9⟩] 2 10 (by decide) (by decide)
